import Mathlib

/-!
# Verification of the music-label CRUD API and seed-data generator

Shallow embedding of the two source files of the repository:

* `src/Archivos/APP.py` — a Flask REST API whose handlers each run one
  parameterized SQL statement against PostgreSQL; and
* `src/Archivos/SEED_DATA.py` — a one-shot seeded data generator.

The relational store is modelled as in-memory lists of rows; a request
body (Python dict parsed from JSON) is an association list of string
fields.  Connection failure and statement exception, the two failure
modes handled by the Python code, are modelled by two booleans carried in
the state; on the success path the embedded handlers perform exactly the
row transformation of the corresponding SQL statement.
-/

namespace MusicLabel

/-! ## Request bodies: Python dicts from `request.get_json()` -/

/-- A parsed JSON request body: field names to string values.
Mirrors the Python dict `data = request.get_json()` (the fields touched
by the embedded handlers are all text-valued at the JSON level). -/
abbrev Dict := List (String × String)

/-- Membership test `field in data` on a Python dict. -/
def dictContains (d : Dict) (k : String) : Bool :=
  d.any (fun kv => kv.1 == k)

/-- Lookup `data[field]` / `data.get(field)`: first binding of the key. -/
def dictGet (d : Dict) (k : String) : Option String :=
  (d.find? (fun kv => kv.1 == k)).map (·.2)

/-- Lookup with default, `data.get(field, default)`. -/
def dictGetD (d : Dict) (k : String) (v : String) : String :=
  (dictGet d k).getD v

/-! ## Rows of the relational store -/

/-- A row of table `artist` (the columns selected and written by APP.py). -/
structure Artist where
  artist_id : Nat
  name : String
  genre : String
  contract_date : String
  contract_status : String
  biography : String
  nationality : String
  deriving DecidableEq, Repr

/-- A row of table `album`. -/
structure Album where
  album_id : Nat
  title : String
  release_date : String
  producer_id : Nat
  status : String
  genre : String
  label_name : String
  deriving DecidableEq, Repr

/-- A row of table `song` (weak entity keyed by `(album_id, song_id)`). -/
structure Song where
  album_id : Nat
  song_id : Nat
  title : String
  duration : Nat
  composer : String
  streams_count : Nat
  is_hit : Bool
  deriving DecidableEq, Repr

/-- A row of table `producer`. -/
structure Producer where
  producer_id : Nat
  name : String
  specialty : String
  years_experience : Nat
  email : String
  phone : String
  deriving DecidableEq, Repr

/-- A row of table `contract`; only the columns read by the embedded
endpoints (`artist_id`, `status`) are carried. -/
structure Contract where
  artist_id : Nat
  status : String
  deriving DecidableEq, Repr

/-- The tables of `music_label_db` touched by the embedded endpoints,
plus the next identity value the database would assign to `artist`
(PostgreSQL serial). -/
structure Tables where
  artists : List Artist
  albums : List Album
  songs : List Song
  producers : List Producer
  contracts : List Contract
  nextArtistId : Nat
  deriving DecidableEq, Repr

/-! ## Connection and query execution (`get_db_connection`, `execute_query`) -/

/-- The two failure modes APP.py handles: `reachable = false` models
`psycopg2.connect` raising (so `get_db_connection` returns `None`);
`queryOk = false` models `cur.execute` raising (caught, rolled back). -/
structure Conn where
  reachable : Bool
  queryOk : Bool
  deriving DecidableEq, Repr

/-- State seen by one request: the database tables and the behaviour of
the fresh connection this request opens. -/
structure ApiState where
  conn : Conn
  tables : Tables
  deriving DecidableEq, Repr

/-- The helper `execute_query(query, params, fetch_one=True)` for a SELECT:
returns `None` when the connection cannot be opened, when the statement
raises, or when `fetchone()` finds no row; otherwise the row.
The three `None`s are indistinguishable to the caller, exactly as in
`execute_query` of APP.py. -/
def execute_query_one {α : Type} (c : Conn) (q : Option α) : Option α :=
  if c.reachable && c.queryOk then q else none

/-! ## Row lookups (the WHERE clauses of the get-by-id SELECTs) -/

/-- Query `SELECT ... FROM artist WHERE artist_id = %s` (first matching row). -/
def find_artist (ts : Tables) (id : Nat) : Option Artist :=
  ts.artists.find? (fun a => a.artist_id == id)

/-- The row shape returned by `get_album`: album columns plus
`p.name as producer_name` from the LEFT JOIN (absent producer gives SQL
NULL, modelled as `none`). -/
structure AlbumView where
  album : Album
  producer_name : Option String
  deriving DecidableEq, Repr

/-- Query `SELECT a.*, p.name FROM album a LEFT JOIN producer p ... WHERE a.album_id = %s`. -/
def find_album_view (ts : Tables) (id : Nat) : Option AlbumView :=
  (ts.albums.find? (fun a => a.album_id == id)).map (fun a =>
    { album := a
      producer_name :=
        (ts.producers.find? (fun p => p.producer_id == a.producer_id)).map (·.name) })

/-- Query `SELECT ... FROM producer WHERE producer_id = %s`. -/
def find_producer (ts : Tables) (id : Nat) : Option Producer :=
  ts.producers.find? (fun p => p.producer_id == id)

/-! ## Response bodies -/

/-- Aggregates returned by `/api/stats`. -/
structure Stats where
  total_artists : Nat
  total_albums : Nat
  total_songs : Nat
  total_hits : Nat
  total_streams : Nat
  active_artists : Nat
  deriving DecidableEq, Repr

/-- JSON bodies produced by the embedded handlers. -/
inductive Body where
  | err (msg : String)
  | artistRow (a : Artist)
  | albumRow (v : AlbumView)
  | producerRow (p : Producer)
  | created (idField : String) (id : Nat) (msg : String)
  | msg (m : String)
  | statsBody (s : Stats)
  deriving DecidableEq, Repr

/-- An HTTP response: status code and JSON body. -/
abbrev Response := Nat × Body

/-- Placeholder for `str(e)` of a caught database exception (the handlers
return it verbatim; its text plays no role in this development). -/
def dbErrMsg : String := "database error"

/-! ## Handlers: artists -/

/-- Endpoint `GET /api/artists/<int:artist_id>` (`get_artist` in APP.py). -/
def get_artist (st : ApiState) (artist_id : Nat) : Response :=
  match execute_query_one st.conn (find_artist st.tables artist_id) with
  | none => (404, Body.err "Artista no encontrado")
  | some a => (200, Body.artistRow a)

/-- Required fields of `create_artist`. -/
def required_fields_artist : List String :=
  ["name", "genre", "contract_date", "nationality"]

/-- Endpoint `POST /api/artists` (`create_artist` in APP.py): validates required
fields, then inserts with defaults `contract_status = 'active'`,
`biography = ''`, returning the database-assigned `artist_id`. -/
def create_artist (st : ApiState) (data : Dict) : ApiState × Response :=
  if !(required_fields_artist.all (fun f => dictContains data f)) then
    (st, (400, Body.err "Campos requeridos faltantes"))
  else if !st.conn.reachable then
    (st, (500, Body.err "Error de conexión"))
  else if !st.conn.queryOk then
    (st, (400, Body.err dbErrMsg))
  else
    let a : Artist :=
      { artist_id := st.tables.nextArtistId
        name := dictGetD data "name" ""
        genre := dictGetD data "genre" ""
        contract_date := dictGetD data "contract_date" ""
        contract_status := dictGetD data "contract_status" "active"
        biography := dictGetD data "biography" ""
        nationality := dictGetD data "nationality" "" }
    ({ st with tables := { st.tables with
          artists := st.tables.artists ++ [a]
          nextArtistId := st.tables.nextArtistId + 1 } },
     (201, Body.created "artist_id" a.artist_id "Artista creado exitosamente"))

/-- Allow-list of `update_artist`. -/
def allowed_fields_artist : List String :=
  ["name", "genre", "contract_status", "biography", "nationality"]

/-- Effect of the generated `UPDATE artist SET ...` on one row: each
allow-listed field present in the body is overwritten, every other
column keeps its value. -/
def updateArtistRow (data : Dict) (a : Artist) : Artist :=
  { a with
    name := dictGetD data "name" a.name
    genre := dictGetD data "genre" a.genre
    contract_status := dictGetD data "contract_status" a.contract_status
    biography := dictGetD data "biography" a.biography
    nationality := dictGetD data "nationality" a.nationality }

/-- Endpoint `PUT /api/artists/<int:artist_id>` (`update_artist` in APP.py). -/
def update_artist (st : ApiState) (artist_id : Nat) (data : Dict) :
    ApiState × Response :=
  let updates := allowed_fields_artist.filter (fun f => dictContains data f)
  if updates.isEmpty then
    (st, (400, Body.err "No hay campos para actualizar"))
  else if !st.conn.reachable then
    (st, (500, Body.err "Error de conexión"))
  else if !st.conn.queryOk then
    (st, (400, Body.err dbErrMsg))
  else
    ({ st with tables := { st.tables with
          artists := st.tables.artists.map (fun a =>
            if a.artist_id == artist_id then updateArtistRow data a else a) } },
     (200, Body.msg "Artista actualizado exitosamente"))

/-- Endpoint `DELETE /api/artists/<int:artist_id>` (`delete_artist` in APP.py).
Note the handler ignores `cur.rowcount`: the response is the same fixed
success message whether or not a row matched. -/
def delete_artist (st : ApiState) (artist_id : Nat) : ApiState × Response :=
  if !st.conn.reachable then
    (st, (500, Body.err "Error de conexión"))
  else if !st.conn.queryOk then
    (st, (400, Body.err dbErrMsg))
  else
    ({ st with tables := { st.tables with
          artists := st.tables.artists.filter (fun a => !(a.artist_id == artist_id)) } },
     (200, Body.msg "Artista eliminado exitosamente"))

/-! ## Handlers: albums and producers -/

/-- Endpoint `GET /api/albums/<int:album_id>` (`get_album` in APP.py). -/
def get_album (st : ApiState) (album_id : Nat) : Response :=
  match execute_query_one st.conn (find_album_view st.tables album_id) with
  | none => (404, Body.err "Álbum no encontrado")
  | some v => (200, Body.albumRow v)

/-- Allow-list of `update_album`. -/
def allowed_fields_album : List String :=
  ["title", "status", "genre", "label_name"]

/-- Effect of the generated `UPDATE album SET ...` on one row. -/
def updateAlbumRow (data : Dict) (a : Album) : Album :=
  { a with
    title := dictGetD data "title" a.title
    status := dictGetD data "status" a.status
    genre := dictGetD data "genre" a.genre
    label_name := dictGetD data "label_name" a.label_name }

/-- Endpoint `PUT /api/albums/<int:album_id>` (`update_album` in APP.py). -/
def update_album (st : ApiState) (album_id : Nat) (data : Dict) :
    ApiState × Response :=
  let updates := allowed_fields_album.filter (fun f => dictContains data f)
  if updates.isEmpty then
    (st, (400, Body.err "No hay campos para actualizar"))
  else if !st.conn.reachable then
    (st, (500, Body.err "Error de conexión"))
  else if !st.conn.queryOk then
    (st, (400, Body.err dbErrMsg))
  else
    ({ st with tables := { st.tables with
          albums := st.tables.albums.map (fun a =>
            if a.album_id == album_id then updateAlbumRow data a else a) } },
     (200, Body.msg "Álbum actualizado exitosamente"))

/-- Endpoint `GET /api/producers/<int:producer_id>` (`get_producer` in APP.py). -/
def get_producer (st : ApiState) (producer_id : Nat) : Response :=
  match execute_query_one st.conn (find_producer st.tables producer_id) with
  | none => (404, Body.err "Productor no encontrado")
  | some p => (200, Body.producerRow p)

/-! ## Handler: statistics -/

/-- Query `SELECT SUM(streams_count) FROM song`: SQL SUM over zero rows is
NULL, modelled as `none`. -/
def sql_sum_streams (ts : Tables) : Option Nat :=
  if ts.songs.isEmpty then none
  else some (ts.songs.foldl (fun acc s => acc + s.streams_count) 0)

/-- The ids produced by
`SELECT a.artist_id FROM artist a JOIN contract c ON a.artist_id = c.artist_id AND c.status = 'active'`:
one entry per (artist, contract) pair satisfying the ON condition. -/
def active_join_ids (ts : Tables) : List Nat :=
  ts.artists.flatMap (fun a =>
    (ts.contracts.filter (fun c =>
      c.artist_id == a.artist_id && c.status == "active")).map (fun _ => a.artist_id))

/-- Aggregate `COUNT(DISTINCT a.artist_id)` over the join above. -/
def sql_active_artists (ts : Tables) : Nat :=
  (active_join_ids ts).dedup.length

/-- Endpoint `GET /api/stats` (`get_stats` in APP.py).  Each sub-query that fails
contributes its Python-falsy default 0; `total_streams` applies the
truthiness collapse `result['total'] if result and result['total'] else 0`. -/
def get_stats (st : ApiState) : Response :=
  let c := st.conn
  let ts := st.tables
  let q1 := execute_query_one c (some ts.artists.length)
  let q2 := execute_query_one c (some ts.albums.length)
  let q3 := execute_query_one c (some ts.songs.length)
  let q4 := execute_query_one c (some (ts.songs.filter (fun s => s.is_hit)).length)
  let q5 := execute_query_one c (some (sql_sum_streams ts))
  let q6 := execute_query_one c (some (sql_active_artists ts))
  let s : Stats :=
    { total_artists := q1.getD 0
      total_albums := q2.getD 0
      total_songs := q3.getD 0
      total_hits := q4.getD 0
      total_streams :=
        match q5 with
        | some (some n) => if n == 0 then 0 else n
        | some none => 0
        | none => 0
      active_artists := q6.getD 0 }
  (200, Body.statsBody s)

/-! ## The seed-data generator (SEED_DATA.py)

### Seeded randomness

`random.seed(42)` and `Faker.seed(42)` run once at module load; every
subsequent draw from either library is a pure function of the seed and
of how many draws were consumed before it.  That is all the generator
relies on, so the seeded generators are modelled by an abstract stream
`stream : Nat → Nat` (fixed by the seed) together with a cursor. -/

/-- The state of the module-level seeded random generators. -/
structure PyRng where
  stream : Nat → Nat
  k : Nat

/-- Consume one raw draw. -/
def PyRng.next (r : PyRng) : Nat × PyRng :=
  (r.stream r.k, { r with k := r.k + 1 })

/-- Python's `random.choice(xs)` (every call site passes a nonempty list). -/
def pyChoice {α : Type} [Inhabited α] (xs : List α) (r : PyRng) : α × PyRng :=
  let p := r.next
  (xs.getD (p.1 % xs.length) default, p.2)

/-- Python's `random.randint(a, b)`, both bounds inclusive. -/
def pyRandint (a b : Nat) (r : PyRng) : Nat × PyRng :=
  let p := r.next
  (a + p.1 % (b - a + 1), p.2)

/-- A Faker-produced text value, identified by its raw draw. -/
def fakeText (n : Nat) : String := Nat.repr n

/-! ### Statement trace of `generate_all`

For the ordering claims the relevant observable is the sequence of SQL
statements each `generate_*` method issues, abstracted to the table it
touches.  Each `*_events` definition mirrors the loop bounds of the
corresponding method. -/

/-- One statement of the generator, abstracted to its table. -/
inductive GEvent where
  | truncate (table : String)
  | ins (table : String)
  | alterTrigger (enable : Bool)
  deriving DecidableEq, Repr

/-- Method `clean_database`: TRUNCATE of the 13 tables, in the listed order. -/
def clean_database_events : List GEvent :=
  (["song_distribution", "artist_album", "contract", "recording_session",
    "song", "album", "engineer", "manager", "staff",
    "distribution", "studio", "producer", "artist"]).map GEvent.truncate

/-- Method `generate_artists(count)`: `count` INSERTs into `artist`. -/
def generate_artists_events (count : Nat) : List GEvent :=
  List.replicate count (GEvent.ins "artist")

/-- Method `generate_producers(count)`. -/
def generate_producers_events (count : Nat) : List GEvent :=
  List.replicate count (GEvent.ins "producer")

/-- Method `generate_studios(count)`. -/
def generate_studios_events (count : Nat) : List GEvent :=
  List.replicate count (GEvent.ins "studio")

/-- Method `generate_albums(count)`. -/
def generate_albums_events (count : Nat) : List GEvent :=
  List.replicate count (GEvent.ins "album")

/-- Method `generate_songs(count)`: disable the hit trigger, `count` attempted
INSERTs into `song`, re-enable the trigger. -/
def generate_songs_events (count : Nat) : List GEvent :=
  GEvent.alterTrigger false :: List.replicate count (GEvent.ins "song")
    ++ [GEvent.alterTrigger true]

/-- Method `generate_recording_sessions(count)`. -/
def generate_recording_sessions_events (count : Nat) : List GEvent :=
  List.replicate count (GEvent.ins "recording_session")

/-- Method `generate_staff(count)`. -/
def generate_staff_events (count : Nat) : List GEvent :=
  List.replicate count (GEvent.ins "staff")

/-- Method `generate_engineers(count)` over a staff pool of `poolLen` ids:
`for i in range(min(count, len(staff_ids)))`. -/
def generate_engineers_events (count poolLen : Nat) : List GEvent :=
  List.replicate (min count poolLen) (GEvent.ins "engineer")

/-- Method `generate_managers(count)` over a staff pool of `poolLen` ids:
`for i in range(count, min(count + 10, len(staff_ids)))`. -/
def generate_managers_events (count poolLen : Nat) : List GEvent :=
  List.replicate (min (count + 10) poolLen - count) (GEvent.ins "manager")

/-- Method `generate_distributions(count)`: one INSERT per entry of
`platforms[:count]` (10 platform names are listed). -/
def generate_distributions_events (count : Nat) : List GEvent :=
  List.replicate (min count 10) (GEvent.ins "distribution")

/-- Method `generate_song_distributions(count)`: each iteration selects a
random song and attempts one INSERT (the song table is nonempty at this
point of `generate_all`, so the SELECT always returns a row). -/
def generate_song_distributions_events (count : Nat) : List GEvent :=
  List.replicate count (GEvent.ins "song_distribution")

/-- Method `generate_contracts(count)` over `poolLen` artist ids:
`for i in range(min(count, len(artist_ids)))`. -/
def generate_contracts_events (count poolLen : Nat) : List GEvent :=
  List.replicate (min count poolLen) (GEvent.ins "contract")

/-- Method `generate_artist_albums(count)`. -/
def generate_artist_albums_events (count : Nat) : List GEvent :=
  List.replicate count (GEvent.ins "artist_album")

/-- The statement trace of `generate_all`: the thirteen generation steps
with the counts hard-coded in `generate_all` (60 artists give the
contract pool, 40 staff give the engineer/manager pool). -/
def generate_all_events : List GEvent :=
  clean_database_events ++
  generate_artists_events 60 ++
  generate_producers_events 50 ++
  generate_studios_events 20 ++
  generate_albums_events 100 ++
  generate_songs_events 500 ++
  generate_recording_sessions_events 150 ++
  generate_staff_events 40 ++
  generate_engineers_events 15 40 ++
  generate_managers_events 10 40 ++
  generate_distributions_events 10 ++
  generate_song_distributions_events 300 ++
  generate_contracts_events 50 60 ++
  generate_artist_albums_events 150

/-- The table of an INSERT event. -/
def GEvent.insTable : GEvent → Option String
  | .ins t => some t
  | _ => none

/-- Run-length encoding, accumulating the current run. -/
def rleGo (cur : String) (n : Nat) : List String → List (String × Nat)
  | [] => [(cur, n)]
  | t :: rest => if t == cur then rleGo cur (n + 1) rest else (cur, n) :: rleGo t 1 rest

/-- Run-length encoding of a list of table names. -/
def rle : List String → List (String × Nat)
  | [] => []
  | t :: rest => rleGo t 1 rest

/-! ### Engineer / manager specialization ranges -/

/-- The staff ids `generate_engineers(count)` attempts to insert as
engineer rows: `staff_ids[i]` for `i in range(min(count, len(staff_ids)))`. -/
def engineer_attempted_ids (staff_ids : List Nat) (count : Nat) : List Nat :=
  (List.range (min count staff_ids.length)).filterMap (fun i => staff_ids.get? i)

/-- The staff ids `generate_managers(count)` attempts to insert as
manager rows: `staff_ids[i]` for `i in range(count, min(count + 10, len(staff_ids)))`. -/
def manager_attempted_ids (staff_ids : List Nat) (count : Nat) : List Nat :=
  ((List.range (min (count + 10) staff_ids.length)).drop count).filterMap
    (fun i => staff_ids.get? i)

/-- The staff pool of the default run: `clean_database` truncates with
`RESTART IDENTITY`, so the 40 staff rows of `generate_staff(40)` receive
the serial ids 1..40. -/
def default_staff_ids : List Nat := (List.range 40).map (· + 1)

/-! ### `generate_songs` with the trigger bracket

Both `ALTER TABLE song (DISABLE|ENABLE) TRIGGER` statements of the
source sit in `try/except` blocks that swallow failure: a raising
DISABLE is only logged as a warning, and a raising ENABLE is discarded
by `except: pass`.  The booleans `disableOk` and `enableOk` say whether
each ALTER takes effect or raises; either way the method continues.
Individual song INSERTs may also fail: `insFail` says which loop
iterations raise, and those exceptions too are swallowed, exactly as
the `try/except: pass` in the source. -/

/-- Generator-side view of the `song` table and the hit trigger. -/
structure SongGenState where
  songs : List Song
  triggerEnabled : Bool
  deriving Repr

/-- One iteration of the `generate_songs` loop: draw the seven row
values in source order, then attempt the INSERT
(`ON CONFLICT DO NOTHING` on the key `(album_id, song_id)`; a raising
INSERT is rolled back and ignored). -/
def song_insert_step (album_ids : List Nat) (insFail : Nat → Bool) (i : Nat)
    (st : SongGenState) (r : PyRng) : SongGenState × PyRng :=
  let p1 := pyChoice album_ids r
  let p2 := pyRandint 1 20 p1.2
  let p3 := p2.2.next
  let p4 := p3.2.next
  let p5 := pyRandint 120 420 p4.2
  let p6 := p5.2.next
  let p7 := pyRandint 0 10000000 p6.2
  let s : Song :=
    { album_id := p1.1
      song_id := p2.1
      title := fakeText p3.1 ++ " " ++ fakeText p4.1
      duration := p5.1
      composer := fakeText p6.1
      streams_count := p7.1
      is_hit := decide (1000000 ≤ p7.1) }
  let songs1 :=
    if insFail i then st.songs
    else if st.songs.any (fun t => t.album_id == s.album_id && t.song_id == s.song_id) then
      st.songs
    else st.songs ++ [s]
  ({ st with songs := songs1 }, p7.2)

/-- The bulk insertion loop of `generate_songs`. -/
def songs_loop (album_ids : List Nat) (insFail : Nat → Bool) (count : Nat)
    (st : SongGenState) (r : PyRng) : SongGenState × PyRng :=
  (List.range count).foldl
    (fun p i => song_insert_step album_ids insFail i p.1 p.2) (st, r)

/-- Method `generate_songs(count)`: attempt to disable the
hit/distribution trigger (a raising ALTER is caught and only logged),
run the bulk loop, then attempt to re-enable the trigger (a raising
ALTER is caught and discarded by `except: pass`, so the method still
finishes, with the trigger left as it was). -/
def generate_songs (album_ids : List Nat) (insFail : Nat → Bool)
    (disableOk enableOk : Bool) (count : Nat) (st : SongGenState) (r : PyRng) :
    SongGenState × PyRng :=
  let st1 := if disableOk then { st with triggerEnabled := false } else st
  let p := songs_loop album_ids insFail count st1 r
  (if enableOk then { p.1 with triggerEnabled := true } else p.1, p.2)

/-! ### `generate_song_distributions` and the database-side RANDOM()

Each iteration first runs
`SELECT album_id, song_id FROM song ORDER BY RANDOM() LIMIT 1`: the row
comes from the *database's* random ordering, which the Python-side seed
does not govern.  It is modelled as an oracle `dbPick` giving the
`(album_id, song_id)` pair returned at each iteration (or `none` when
the song table is empty). -/

/-- A row of table `song_distribution`. -/
structure SongDistribution where
  song_id : Nat
  album_id : Nat
  distribution_id : Nat
  publish_date : Nat
  status : String
  deriving DecidableEq, Repr

/-- Statuses drawn by `generate_song_distributions`. -/
def sd_statuses : List String := ["active", "inactive", "pending"]

/-- Generator-side view of the `song_distribution` table: the stored
rows, and the trace of rows whose INSERT was attempted. -/
structure SDGen where
  rows : List SongDistribution
  attempts : List SongDistribution
  deriving DecidableEq, Repr

/-- One iteration of `generate_song_distributions`: database-side random
song pick; if a row came back, draw platform, date and status from the
seeded generators and attempt the INSERT (`ON CONFLICT DO NOTHING` on
the key `(song_id, album_id, distribution_id)`). -/
def song_dist_step (dbPick : Nat → Option (Nat × Nat)) (distribution_ids : List Nat)
    (i : Nat) (g : SDGen) (r : PyRng) : SDGen × PyRng :=
  match dbPick i with
  | none => (g, r)
  | some pick =>
    let p1 := pyChoice distribution_ids r
    let p2 := p1.2.next
    let p3 := pyChoice sd_statuses p2.2
    let row : SongDistribution :=
      { song_id := pick.2
        album_id := pick.1
        distribution_id := p1.1
        publish_date := p2.1
        status := p3.1 }
    let rows1 :=
      if g.rows.any (fun t =>
          t.song_id == row.song_id && t.album_id == row.album_id &&
            t.distribution_id == row.distribution_id) then
        g.rows
      else g.rows ++ [row]
    ({ rows := rows1, attempts := g.attempts ++ [row] }, p3.2)

/-- Method `generate_song_distributions(count)`. -/
def generate_song_distributions (dbPick : Nat → Option (Nat × Nat))
    (distribution_ids : List Nat) (count : Nat) (g : SDGen) (r : PyRng) :
    SDGen × PyRng :=
  (List.range count).foldl
    (fun p i => song_dist_step dbPick distribution_ids i p.1 p.2) (g, r)

/-- The fields of a `song_distribution` row that come from the seeded
Python-side generators (everything except the song attachment). -/
def sdSeedFields (t : SongDistribution) : Nat × Nat × String :=
  (t.distribution_id, t.publish_date, t.status)

/-! ## Concrete instances used to instantiate the theorems -/

/-- A sample artist row (id 1). -/
def exArtist : Artist :=
  { artist_id := 1, name := "X", genre := "rock", contract_date := "2020-01-01"
    contract_status := "active", biography := "", nationality := "Spain" }

/-- A sample producer row (id 7). -/
def exProducer : Producer :=
  { producer_id := 7, name := "P", specialty := "Pop", years_experience := 10
    email := "p@label.com", phone := "600000000" }

/-- A sample album row (id 3, produced by producer 7). -/
def exAlbum : Album :=
  { album_id := 3, title := "T", release_date := "2021-05-05", producer_id := 7
    status := "draft", genre := "pop", label_name := "L" }

/-- A sample song row of album 3. -/
def exSong : Song :=
  { album_id := 3, song_id := 1, title := "S", duration := 200, composer := "C"
    streams_count := 5, is_hit := false }

/-- A sample active contract of artist 1. -/
def exContract : Contract := { artist_id := 1, status := "active" }

/-- A working connection. -/
def connOk : Conn := { reachable := true, queryOk := true }

/-- An unreachable database (`psycopg2.connect` raises). -/
def connDown : Conn := { reachable := false, queryOk := true }

/-- A populated database. -/
def exTables : Tables :=
  { artists := [exArtist], albums := [exAlbum], songs := [exSong]
    producers := [exProducer], contracts := [exContract], nextArtistId := 2 }

/-- An empty database. -/
def emptyTables : Tables :=
  { artists := [], albums := [], songs := [], producers := [], contracts := []
    nextArtistId := 1 }

/-- Populated database, working connection. -/
def stOk : ApiState := { conn := connOk, tables := exTables }

/-- Populated database, unreachable storage. -/
def stDown : ApiState := { conn := connDown, tables := exTables }

/-- Empty database, working connection. -/
def stEmpty : ApiState := { conn := connOk, tables := emptyTables }

/-- Body of the POST /api/artists scenario of the spec. -/
def exCreateData : Dict :=
  [("name", "X"), ("genre", "rock"), ("contract_date", "2020-01-01"),
   ("nationality", "Spain")]

/-- An update body touching one artist field and one album field, plus
fields outside both allow-lists and an unknown field. -/
def exUpdateData : Dict :=
  [("genre", "jazz"), ("title", "U"), ("contract_date", "1999-01-01"),
   ("release_date", "1999-01-01"), ("producer_id", "9"), ("unknown_field", "z")]

/-- A database-side song pick that always returns song 1 of album 3. -/
def exPickA : Nat → Option (Nat × Nat) := fun _ => some (3, 1)

/-- A database-side song pick that always returns song 2 of album 3. -/
def exPickB : Nat → Option (Nat × Nat) := fun _ => some (3, 2)

/-- The song keys present when `generate_song_distributions` runs in the
counterexample run: two songs of album 3. -/
def exSongKeys : List (Nat × Nat) := [(3, 1), (3, 2)]

/-- A seeded stream (any fixed stream stands for the fixed seed 42). -/
def exRng : PyRng := { stream := fun _ => 0, k := 0 }

/-! ## Spec-side aggregates and field contracts -/

/-- The sum of `streams_count` over all Song rows (the spec's wording of
`total_streams`). -/
def sum_streams (ts : Tables) : Nat :=
  ts.songs.foldl (fun acc s => acc + s.streams_count) 0

/-- The number of distinct artists holding at least one contract with
status `"active"` (the spec's wording of `active_artists`). -/
def spec_active_artists (ts : Tables) : Nat :=
  (((ts.artists.filter (fun a =>
      ts.contracts.any (fun c =>
        c.artist_id == a.artist_id && c.status == "active"))).map
    (fun a => a.artist_id)).dedup).length

/-- Field-level contract of the artist UPDATE: the id and the
non-allow-listed column `contract_date` are never written; each
allow-listed column receives the body's value when the field is present
and keeps the row's value when it is absent. -/
def ArtistFieldContract (data : Dict) : Prop :=
  ∀ a : Artist,
    (updateArtistRow data a).artist_id = a.artist_id ∧
    (updateArtistRow data a).contract_date = a.contract_date ∧
    (dictGet data "name" = none → (updateArtistRow data a).name = a.name) ∧
    (∀ v, dictGet data "name" = some v → (updateArtistRow data a).name = v) ∧
    (dictGet data "genre" = none → (updateArtistRow data a).genre = a.genre) ∧
    (∀ v, dictGet data "genre" = some v → (updateArtistRow data a).genre = v) ∧
    (dictGet data "contract_status" = none →
      (updateArtistRow data a).contract_status = a.contract_status) ∧
    (∀ v, dictGet data "contract_status" = some v →
      (updateArtistRow data a).contract_status = v) ∧
    (dictGet data "biography" = none → (updateArtistRow data a).biography = a.biography) ∧
    (∀ v, dictGet data "biography" = some v → (updateArtistRow data a).biography = v) ∧
    (dictGet data "nationality" = none →
      (updateArtistRow data a).nationality = a.nationality) ∧
    (∀ v, dictGet data "nationality" = some v → (updateArtistRow data a).nationality = v)

/-- Field-level contract of the album UPDATE: the id and the
non-allow-listed columns `release_date` and `producer_id` are never
written; each allow-listed column receives the body's value when
present and keeps the row's value when absent. -/
def AlbumFieldContract (data : Dict) : Prop :=
  ∀ a : Album,
    (updateAlbumRow data a).album_id = a.album_id ∧
    (updateAlbumRow data a).release_date = a.release_date ∧
    (updateAlbumRow data a).producer_id = a.producer_id ∧
    (dictGet data "title" = none → (updateAlbumRow data a).title = a.title) ∧
    (∀ v, dictGet data "title" = some v → (updateAlbumRow data a).title = v) ∧
    (dictGet data "status" = none → (updateAlbumRow data a).status = a.status) ∧
    (∀ v, dictGet data "status" = some v → (updateAlbumRow data a).status = v) ∧
    (dictGet data "genre" = none → (updateAlbumRow data a).genre = a.genre) ∧
    (∀ v, dictGet data "genre" = some v → (updateAlbumRow data a).genre = v) ∧
    (dictGet data "label_name" = none → (updateAlbumRow data a).label_name = a.label_name) ∧
    (∀ v, dictGet data "label_name" = some v → (updateAlbumRow data a).label_name = v)

/-! ## Theorems -/

set_option maxRecDepth 100000

/-- C1, counterexample.  A GET-by-id against unreachable storage, on a
database that does hold the requested row, produces the very same
404 not-found response as a GET-by-id for a missing row on a healthy
connection — and not a 500.  The connectivity case is therefore not
surfaced distinctly from the not-found case. -/
theorem get_by_id_conflates_connectivity_and_not_found :
    find_artist stDown.tables 1 = some exArtist ∧
    stDown.conn.reachable = false ∧
    get_artist stDown 1 = (404, Body.err "Artista no encontrado") ∧
    get_artist stEmpty 1 = (404, Body.err "Artista no encontrado") ∧
    (get_artist stDown 1).1 ≠ 500 := by
  decide

/-- C1, amended.  For every GET-by-id request (artists, albums,
producers): when the connection cannot be opened, when the query raises,
or when no row with the id exists, the response is the same
404 not-found signal; connectivity failures are not surfaced as server
errors by these endpoints. -/
theorem get_by_id_failure_modes_all_yield_not_found (st : ApiState) (aid bid pid : Nat)
    (h : st.conn.reachable = false ∨ st.conn.queryOk = false ∨
      (find_artist st.tables aid = none ∧ find_album_view st.tables bid = none ∧
        find_producer st.tables pid = none)) :
    get_artist st aid = (404, Body.err "Artista no encontrado") ∧
    get_album st bid = (404, Body.err "Álbum no encontrado") ∧
    get_producer st pid = (404, Body.err "Productor no encontrado") := by
  unfold get_artist get_album get_producer execute_query_one
  rcases h with h | h | ⟨h1, h2, h3⟩
  · simp [h]
  · simp [h]
  · rw [h1, h2, h3]
    cases st.conn.reachable && st.conn.queryOk <;> simp

/-- C1, witness for the amended theorem, at the unreachable state. -/
theorem get_by_id_failure_modes_witness :
    get_artist stDown 1 = (404, Body.err "Artista no encontrado") ∧
    get_album stDown 3 = (404, Body.err "Álbum no encontrado") ∧
    get_producer stDown 7 = (404, Body.err "Productor no encontrado") :=
  get_by_id_failure_modes_all_yield_not_found stDown 1 3 7 (Or.inl rfl)

/-- C2, counterexample.  In the statement trace of `generate_all` the
first album insertion (index 143) is preceded by no staff and no
distribution insertion, while staff insertions (first at index 895) and
distribution insertions (first at index 960) occur only later: Staff and
Distribution insertions do not precede the Album insertions. -/
theorem generate_all_staff_and_distribution_follow_albums :
    generate_all_events.get? 143 = some (GEvent.ins "album") ∧
    (generate_all_events.take 143).all (fun e => !(e == GEvent.ins "staff")) = true ∧
    (generate_all_events.take 143).all (fun e => !(e == GEvent.ins "distribution")) = true ∧
    generate_all_events.get? 895 = some (GEvent.ins "staff") ∧
    generate_all_events.get? 960 = some (GEvent.ins "distribution") :=
  ⟨rfl, rfl, rfl, rfl, rfl⟩

/-- C2, amended.  `generate_all` performs its row insertions in the
fixed table order artist, producer, studio, album, song,
recording_session, staff, engineer, manager, distribution,
song_distribution, contract, artist_album (with the hard-coded counts):
every dependent entity is inserted after the entities whose keys it
references, but Staff and Distribution are inserted after — not
before — Album, Song and RecordingSession. -/
theorem generate_all_insertion_order :
    rle (generate_all_events.filterMap GEvent.insTable) =
      [("artist", 60), ("producer", 50), ("studio", 20), ("album", 100),
       ("song", 500), ("recording_session", 150), ("staff", 40),
       ("engineer", 15), ("manager", 10), ("distribution", 10),
       ("song_distribution", 300), ("contract", 50), ("artist_album", 150)] :=
  rfl

/-- C3, counterexample.  In the default run (`generate_engineers(15)`
then `generate_managers(10)` over the 40 staff ids 1..40 assigned after
the identity restart), staff id 11 is attempted both as an engineer row
and as a manager row. -/
theorem staff_id_attempted_as_engineer_and_manager :
    11 ∈ engineer_attempted_ids default_staff_ids 15 ∧
    11 ∈ manager_attempted_ids default_staff_ids 10 := by
  decide

/-- C3, amended.  Engineers are drawn from staff-pool indices
`0..min(count,pool)-1` and managers from indices
`count..min(count+10,pool)-1` of the same pool; with the counts of
`generate_all` (15 engineers, 10 managers, staff ids 1..40) the two
ranges overlap: the ids 11..15 are attempted in both roles. -/
theorem engineer_manager_ranges_overlap_by_five :
    engineer_attempted_ids default_staff_ids 15 = (List.range 15).map (· + 1) ∧
    manager_attempted_ids default_staff_ids 10 = (List.range 10).map (· + 11) ∧
    (engineer_attempted_ids default_staff_ids 15).inter
        (manager_attempted_ids default_staff_ids 10) = [11, 12, 13, 14, 15] := by
  decide

/-- C7, counterexample.  Deleting the nonexistent artist 2 yields a
response identical to the response of deleting the existing artist 1:
a fixed 200 success message.  The response therefore does not report the
number of rows affected. -/
theorem delete_response_carries_no_rowcount :
    find_artist stOk.tables 2 = none ∧
    find_artist stOk.tables 1 = some exArtist ∧
    (delete_artist stOk 2).2 = (delete_artist stOk 1).2 ∧
    (delete_artist stOk 2).2 = (200, Body.msg "Artista eliminado exitosamente") := by
  decide

/-! ### Helper lemmas -/

/-- Lemma: `find?` skips a prefix on which the predicate is everywhere false. -/
theorem find?_append_of_all_neg {α : Type} (l1 l2 : List α) (p : α → Bool)
    (h : ∀ x ∈ l1, p x = false) : (l1 ++ l2).find? p = l2.find? p := by
  rw [List.find?_append]
  have h1 : l1.find? p = none := List.find?_eq_none.mpr (by
    intro x hx
    simp [h x hx])
  rw [h1, Option.none_or]

/-- A key absent from a dict has no value. -/
theorem dictGet_eq_none_of_contains_false (d : Dict) (k : String)
    (h : dictContains d k = false) : dictGet d k = none := by
  unfold dictContains at h
  unfold dictGet
  rw [List.find?_eq_none.mpr]
  · rfl
  · intro kv hkv
    rcases List.any_eq_false.mp h kv hkv with hne
    simp at hne ⊢
    exact hne

/-- Filtering a dict by a key predicate that accepts `k` does not change
the lookup at `k`. -/
theorem dictGet_filter (d : Dict) (p : String → Bool) (k : String)
    (hk : p k = true) : dictGet (d.filter (fun kv => p kv.1)) k = dictGet d k := by
  induction d with
  | nil => rfl
  | cons kv rest ih =>
    unfold dictGet at ih ⊢
    by_cases hp : p kv.1 = true
    · rw [List.filter_cons, if_pos hp, List.find?_cons, List.find?_cons]
      cases hq : kv.1 == k
      · exact ih
      · rfl
    · have hp' : p kv.1 = false := by simpa using hp
      rw [List.filter_cons, if_neg (by simp [hp']), List.find?_cons]
      cases hq : kv.1 == k
      · exact ih
      · have hkk : p k = false := by
          rw [← (beq_iff_eq.mp hq)]
          exact hp'
        rw [hkk] at hk
        cases hk

/-- Filtering a dict by a key predicate that accepts `k` does not change
membership of `k`. -/
theorem dictContains_filter (d : Dict) (p : String → Bool) (k : String)
    (hk : p k = true) :
    dictContains (d.filter (fun kv => p kv.1)) k = dictContains d k := by
  induction d with
  | nil => rfl
  | cons kv rest ih =>
    unfold dictContains at ih ⊢
    by_cases hp : p kv.1 = true
    · rw [List.filter_cons, if_pos hp, List.any_cons, List.any_cons]
      cases hq : kv.1 == k
      · rw [Bool.false_or, Bool.false_or]
        exact ih
      · rfl
    · have hp' : p kv.1 = false := by simpa using hp
      rw [List.filter_cons, if_neg (by simp [hp']), List.any_cons]
      cases hq : kv.1 == k
      · rw [Bool.false_or]
        exact ih
      · have hkk : p k = false := by
          rw [← (beq_iff_eq.mp hq)]
          exact hp'
        rw [hkk] at hk
        cases hk

/-- A row surviving the artist DELETE filter never matches the deleted id. -/
theorem find?_filter_deleted (l : List Artist) (id : Nat) :
    (l.filter (fun a => !(a.artist_id == id))).find? (fun a => a.artist_id == id) = none := by
  rw [List.find?_eq_none]
  intro a ha
  have := (List.mem_filter.mp ha).2
  simp at this ⊢
  exact this

/-- C7, amended.  With a working connection, deleting any id leaves no
row with that id (a subsequent GET-by-id reports not-found); deleting an
id with no matching row is not an error: the state is unchanged and the
response is the same fixed 200 success message as a successful delete —
the number of rows affected is not part of the response. -/
theorem delete_artist_removes_row_and_nonexistent_is_success (st : ApiState) (id1 id2 : Nat)
    (hr : st.conn.reachable = true) (hq : st.conn.queryOk = true)
    (habs : find_artist st.tables id2 = none) :
    get_artist (delete_artist st id1).1 id1 = (404, Body.err "Artista no encontrado") ∧
    (delete_artist st id2).2 = (200, Body.msg "Artista eliminado exitosamente") ∧
    (delete_artist st id2).1 = st := by
  have hall : ∀ a ∈ st.tables.artists, (a.artist_id == id2) = false := by
    intro a ha
    have := List.find?_eq_none.mp habs a ha
    simpa using this
  refine ⟨?_, ?_, ?_⟩
  · unfold delete_artist
    simp only [hr, hq, Bool.not_true, Bool.false_eq_true, if_false]
    unfold get_artist execute_query_one find_artist
    simp only [hr, hq, Bool.and_self, if_true]
    rw [find?_filter_deleted]
  · unfold delete_artist
    simp [hr, hq]
  · unfold delete_artist
    simp only [hr, hq, Bool.not_true, Bool.false_eq_true, if_false]
    have : st.tables.artists.filter (fun a => !(a.artist_id == id2)) = st.tables.artists := by
      apply List.filter_eq_self.mpr
      intro a ha
      simp [hall a ha]
    rw [this]

/-- C7, witness: deleting artist 1 from the populated state makes the
subsequent GET report not-found; deleting the absent artist 2 returns
the fixed success message and leaves the state unchanged. -/
theorem delete_artist_witness :
    get_artist (delete_artist stOk 1).1 1 = (404, Body.err "Artista no encontrado") ∧
    (delete_artist stOk 2).2 = (200, Body.msg "Artista eliminado exitosamente") ∧
    (delete_artist stOk 2).1 = stOk :=
  delete_artist_removes_row_and_nonexistent_is_success stOk 1 2 rfl rfl (by decide)

/-- C5.  A POST /api/artists body carrying the four required fields (on
a database whose rows all have ids below the next serial) is answered
with 201 and the newly assigned `artist_id`; the stored row carries the
body's values, and the defaults `contract_status = "active"`,
`biography = ""` whenever those optional fields are omitted. -/
theorem create_artist_returns_201_and_applies_defaults (st : ApiState) (data : Dict)
    (hreq : required_fields_artist.all (fun f => dictContains data f) = true)
    (hr : st.conn.reachable = true) (hq : st.conn.queryOk = true)
    (hfresh : ∀ a ∈ st.tables.artists, a.artist_id < st.tables.nextArtistId) :
    (create_artist st data).2 =
      (201, Body.created "artist_id" st.tables.nextArtistId "Artista creado exitosamente") ∧
    ∃ a : Artist,
      find_artist (create_artist st data).1.tables st.tables.nextArtistId = some a ∧
      (∀ v, dictGet data "name" = some v → a.name = v) ∧
      (∀ v, dictGet data "genre" = some v → a.genre = v) ∧
      (∀ v, dictGet data "contract_date" = some v → a.contract_date = v) ∧
      (∀ v, dictGet data "nationality" = some v → a.nationality = v) ∧
      (dictContains data "contract_status" = false → a.contract_status = "active") ∧
      (dictContains data "biography" = false → a.biography = "") := by
  have hfind :
      find_artist (create_artist st data).1.tables st.tables.nextArtistId =
        some
          { artist_id := st.tables.nextArtistId
            name := dictGetD data "name" ""
            genre := dictGetD data "genre" ""
            contract_date := dictGetD data "contract_date" ""
            contract_status := dictGetD data "contract_status" "active"
            biography := dictGetD data "biography" ""
            nationality := dictGetD data "nationality" "" } := by
    unfold create_artist
    simp only [hreq, hr, hq, Bool.not_true, Bool.false_eq_true, if_false]
    unfold find_artist
    rw [find?_append_of_all_neg]
    · rw [List.find?_cons]
      simp
    · intro a ha
      simp only [beq_eq_false_iff_ne]
      exact Nat.ne_of_lt (hfresh a ha)
  constructor
  · unfold create_artist
    simp only [hreq, hr, hq, Bool.not_true, Bool.false_eq_true, if_false]
  · refine ⟨_, hfind, ?_, ?_, ?_, ?_, ?_, ?_⟩
    · intro v hv
      simp only [dictGetD, hv, Option.getD_some]
    · intro v hv
      simp only [dictGetD, hv, Option.getD_some]
    · intro v hv
      simp only [dictGetD, hv, Option.getD_some]
    · intro v hv
      simp only [dictGetD, hv, Option.getD_some]
    · intro hc
      simp only [dictGetD, dictGet_eq_none_of_contains_false data _ hc, Option.getD_none]
    · intro hc
      simp only [dictGetD, dictGet_eq_none_of_contains_false data _ hc, Option.getD_none]

/-- C5, witness: the spec's scenario body against the empty database. -/
theorem create_artist_witness :
    (create_artist stEmpty exCreateData).2 =
      (201, Body.created "artist_id" 1 "Artista creado exitosamente") ∧
    ∃ a : Artist,
      find_artist (create_artist stEmpty exCreateData).1.tables 1 = some a ∧
      (∀ v, dictGet exCreateData "name" = some v → a.name = v) ∧
      (∀ v, dictGet exCreateData "genre" = some v → a.genre = v) ∧
      (∀ v, dictGet exCreateData "contract_date" = some v → a.contract_date = v) ∧
      (∀ v, dictGet exCreateData "nationality" = some v → a.nationality = v) ∧
      (dictContains exCreateData "contract_status" = false → a.contract_status = "active") ∧
      (dictContains exCreateData "biography" = false → a.biography = "") :=
  create_artist_returns_201_and_applies_defaults stEmpty exCreateData (by decide) rfl rfl
    (by intro a ha; simp [stEmpty, emptyTables] at ha)

/-- The SQL `COUNT(DISTINCT ...)` over the artist/contract join equals
the spec's distinct count of artists holding an active contract. -/
theorem sql_active_artists_eq_spec (ts : Tables) :
    sql_active_artists ts = spec_active_artists ts := by
  unfold sql_active_artists spec_active_artists
  rw [← List.card_toFinset, ← List.card_toFinset]
  congr 1
  apply Finset.ext
  intro x
  rw [List.mem_toFinset, List.mem_toFinset]
  unfold active_join_ids
  rw [List.mem_flatMap]
  rw [List.mem_map]
  constructor
  · rintro ⟨a, ha, hx⟩
    rw [List.mem_map] at hx
    rcases hx with ⟨c, hc, hcx⟩
    refine ⟨a, List.mem_filter.mpr ⟨ha, ?_⟩, hcx⟩
    rw [List.any_eq_true]
    exact ⟨c, (List.mem_filter.mp hc).1, (List.mem_filter.mp hc).2⟩
  · rintro ⟨a, ha, hax⟩
    have hmem := (List.mem_filter.mp ha).1
    have hany := (List.mem_filter.mp ha).2
    rw [List.any_eq_true] at hany
    rcases hany with ⟨c, hc, hcond⟩
    refine ⟨a, hmem, ?_⟩
    rw [List.mem_map]
    exact ⟨c, List.mem_filter.mpr ⟨hc, hcond⟩, hax⟩

/-- C8.  With a working connection, /api/stats returns exactly the
table counts, with `total_streams` the sum of `streams_count` over all
Song rows (0 when no songs exist) and `active_artists` the distinct
count of artists holding a contract with status `"active"`. -/
theorem stats_totals_match_tables (st : ApiState)
    (hr : st.conn.reachable = true) (hq : st.conn.queryOk = true) :
    get_stats st =
      (200, Body.statsBody
        { total_artists := st.tables.artists.length
          total_albums := st.tables.albums.length
          total_songs := st.tables.songs.length
          total_hits := (st.tables.songs.filter (fun s => s.is_hit)).length
          total_streams := sum_streams st.tables
          active_artists := spec_active_artists st.tables }) := by
  unfold get_stats execute_query_one
  simp only [hr, hq, Bool.and_self, if_true, Option.getD_some]
  rw [sql_active_artists_eq_spec]
  have hstreams :
      (match some (sql_sum_streams st.tables) with
        | some (some n) => if n == 0 then 0 else n
        | some none => 0
        | none => 0) = sum_streams st.tables := by
    unfold sql_sum_streams sum_streams
    cases hs : st.tables.songs with
    | nil => rfl
    | cons s rest =>
      simp only [List.isEmpty_cons]
      cases hf : List.foldl (fun acc t => acc + t.streams_count) 0 (s :: rest) with
      | zero => simp
      | succ n => simp
  rw [hstreams]

/-- C8, witness at the populated database (one song with 5 streams, one
artist with an active contract). -/
theorem stats_totals_witness :
    get_stats stOk =
      (200, Body.statsBody
        { total_artists := 1, total_albums := 1, total_songs := 1, total_hits := 0
          total_streams := 5, active_artists := 1 }) := by
  have h := stats_totals_match_tables stOk rfl rfl
  rw [h]
  decide

/-- A map that fixes every element of a list leaves it unchanged. -/
theorem map_eq_self_of_eq {α : Type} (l : List α) (f : α → α) (h : ∀ x ∈ l, f x = x) :
    l.map f = l := by
  induction l with
  | nil => rfl
  | cons x xs ih =>
    rw [List.map_cons, h x (by simp), ih (fun y hy => h y (by simp [hy]))]

/-- The artist UPDATE writes the allow-listed fields as the body
dictates and nothing else. -/
theorem artist_field_contract (data : Dict) : ArtistFieldContract data := by
  intro a
  refine ⟨rfl, rfl, ?_, ?_, ?_, ?_, ?_, ?_, ?_, ?_, ?_, ?_⟩
  · intro h
    simp [updateArtistRow, dictGetD, h]
  · intro v h
    simp [updateArtistRow, dictGetD, h]
  · intro h
    simp [updateArtistRow, dictGetD, h]
  · intro v h
    simp [updateArtistRow, dictGetD, h]
  · intro h
    simp [updateArtistRow, dictGetD, h]
  · intro v h
    simp [updateArtistRow, dictGetD, h]
  · intro h
    simp [updateArtistRow, dictGetD, h]
  · intro v h
    simp [updateArtistRow, dictGetD, h]
  · intro h
    simp [updateArtistRow, dictGetD, h]
  · intro v h
    simp [updateArtistRow, dictGetD, h]

/-- The album UPDATE writes the allow-listed fields as the body dictates
and nothing else. -/
theorem album_field_contract (data : Dict) : AlbumFieldContract data := by
  intro a
  refine ⟨rfl, rfl, rfl, ?_, ?_, ?_, ?_, ?_, ?_, ?_, ?_⟩
  · intro h
    simp [updateAlbumRow, dictGetD, h]
  · intro v h
    simp [updateAlbumRow, dictGetD, h]
  · intro h
    simp [updateAlbumRow, dictGetD, h]
  · intro v h
    simp [updateAlbumRow, dictGetD, h]
  · intro h
    simp [updateAlbumRow, dictGetD, h]
  · intro v h
    simp [updateAlbumRow, dictGetD, h]
  · intro h
    simp [updateAlbumRow, dictGetD, h]
  · intro v h
    simp [updateAlbumRow, dictGetD, h]

/-- Fields outside the artist allow-list never influence the artist
UPDATE: the handler behaves as if the body were filtered down to the
allow-listed keys. -/
theorem update_artist_ignores_unknown_fields (st : ApiState) (aid : Nat) (data : Dict) :
    update_artist st aid data =
      update_artist st aid (data.filter (fun kv => allowed_fields_artist.contains kv.1)) := by
  have hc : ∀ f ∈ allowed_fields_artist,
      dictContains (data.filter (fun kv => allowed_fields_artist.contains kv.1)) f =
        dictContains data f := by
    intro f hf
    exact dictContains_filter data _ f (List.elem_iff.mpr hf)
  have hupd :
      allowed_fields_artist.filter
          (fun f =>
            dictContains (data.filter (fun kv => allowed_fields_artist.contains kv.1)) f) =
        allowed_fields_artist.filter (fun f => dictContains data f) :=
    List.filter_congr hc
  have hrow :
      updateArtistRow (data.filter (fun kv => allowed_fields_artist.contains kv.1)) =
        updateArtistRow data := by
    funext a
    unfold updateArtistRow dictGetD
    rw [dictGet_filter data _ "name" (by decide), dictGet_filter data _ "genre" (by decide),
      dictGet_filter data _ "contract_status" (by decide),
      dictGet_filter data _ "biography" (by decide),
      dictGet_filter data _ "nationality" (by decide)]
  simp only [update_artist, hupd, hrow]

/-- Fields outside the album allow-list never influence the album
UPDATE. -/
theorem update_album_ignores_unknown_fields (st : ApiState) (bid : Nat) (data : Dict) :
    update_album st bid data =
      update_album st bid (data.filter (fun kv => allowed_fields_album.contains kv.1)) := by
  have hc : ∀ f ∈ allowed_fields_album,
      dictContains (data.filter (fun kv => allowed_fields_album.contains kv.1)) f =
        dictContains data f := by
    intro f hf
    exact dictContains_filter data _ f (List.elem_iff.mpr hf)
  have hupd :
      allowed_fields_album.filter
          (fun f =>
            dictContains (data.filter (fun kv => allowed_fields_album.contains kv.1)) f) =
        allowed_fields_album.filter (fun f => dictContains data f) :=
    List.filter_congr hc
  have hrow :
      updateAlbumRow (data.filter (fun kv => allowed_fields_album.contains kv.1)) =
        updateAlbumRow data := by
    funext a
    unfold updateAlbumRow dictGetD
    rw [dictGet_filter data _ "title" (by decide), dictGet_filter data _ "status" (by decide),
      dictGet_filter data _ "genre" (by decide),
      dictGet_filter data _ "label_name" (by decide)]
  simp only [update_album, hupd, hrow]

/-- C6.  Updates apply exactly the allow-listed fields present in the
body: every other column of the targeted row keeps its value, rows with
a different id are untouched, and fields outside the allow-list
(including unknown fields) are silently ignored. -/
theorem update_applies_only_allowlisted_present_fields (st : ApiState) (aid bid : Nat)
    (data : Dict) (hr : st.conn.reachable = true) (hq : st.conn.queryOk = true) :
    ArtistFieldContract data ∧
    AlbumFieldContract data ∧
    ((allowed_fields_artist.filter (fun f => dictContains data f)).isEmpty = false →
      (∀ a ∈ st.tables.artists, a.artist_id ≠ aid →
          a ∈ (update_artist st aid data).1.tables.artists) ∧
      (∀ a ∈ st.tables.artists, a.artist_id = aid →
          updateArtistRow data a ∈ (update_artist st aid data).1.tables.artists)) ∧
    ((allowed_fields_album.filter (fun f => dictContains data f)).isEmpty = false →
      (∀ b ∈ st.tables.albums, b.album_id ≠ bid →
          b ∈ (update_album st bid data).1.tables.albums) ∧
      (∀ b ∈ st.tables.albums, b.album_id = bid →
          updateAlbumRow data b ∈ (update_album st bid data).1.tables.albums)) ∧
    update_artist st aid data =
      update_artist st aid (data.filter (fun kv => allowed_fields_artist.contains kv.1)) ∧
    update_album st bid data =
      update_album st bid (data.filter (fun kv => allowed_fields_album.contains kv.1)) := by
  refine ⟨artist_field_contract data, album_field_contract data, ?_, ?_,
    update_artist_ignores_unknown_fields st aid data,
    update_album_ignores_unknown_fields st bid data⟩
  · intro hne
    have hres : (update_artist st aid data).1.tables.artists =
        st.tables.artists.map
          (fun a => if a.artist_id == aid then updateArtistRow data a else a) := by
      unfold update_artist
      simp only [hne, hr, hq, Bool.not_true, Bool.false_eq_true, if_false]
    constructor
    · intro a ha hne2
      rw [hres]
      exact List.mem_map.mpr ⟨a, ha, by simp [hne2]⟩
    · intro a ha heq
      rw [hres]
      exact List.mem_map.mpr ⟨a, ha, by simp [heq]⟩
  · intro hne
    have hres : (update_album st bid data).1.tables.albums =
        st.tables.albums.map
          (fun b => if b.album_id == bid then updateAlbumRow data b else b) := by
      unfold update_album
      simp only [hne, hr, hq, Bool.not_true, Bool.false_eq_true, if_false]
    constructor
    · intro b hb hne2
      rw [hres]
      exact List.mem_map.mpr ⟨b, hb, by simp [hne2]⟩
    · intro b hb heq
      rw [hres]
      exact List.mem_map.mpr ⟨b, hb, by simp [heq]⟩

/-- C6, witness at the populated state with a body containing one
allow-listed artist field, one allow-listed album field, fields outside
both allow-lists and an unknown field. -/
theorem update_allowlist_witness :
    ArtistFieldContract exUpdateData ∧
    AlbumFieldContract exUpdateData ∧
    ((allowed_fields_artist.filter (fun f => dictContains exUpdateData f)).isEmpty = false →
      (∀ a ∈ stOk.tables.artists, a.artist_id ≠ 1 →
          a ∈ (update_artist stOk 1 exUpdateData).1.tables.artists) ∧
      (∀ a ∈ stOk.tables.artists, a.artist_id = 1 →
          updateArtistRow exUpdateData a ∈ (update_artist stOk 1 exUpdateData).1.tables.artists)) ∧
    ((allowed_fields_album.filter (fun f => dictContains exUpdateData f)).isEmpty = false →
      (∀ b ∈ stOk.tables.albums, b.album_id ≠ 3 →
          b ∈ (update_album stOk 3 exUpdateData).1.tables.albums) ∧
      (∀ b ∈ stOk.tables.albums, b.album_id = 3 →
          updateAlbumRow exUpdateData b ∈ (update_album stOk 3 exUpdateData).1.tables.albums)) ∧
    update_artist stOk 1 exUpdateData =
      update_artist stOk 1 (exUpdateData.filter (fun kv => allowed_fields_artist.contains kv.1)) ∧
    update_album stOk 3 exUpdateData =
      update_album stOk 3 (exUpdateData.filter (fun kv => allowed_fields_album.contains kv.1)) :=
  update_applies_only_allowlisted_present_fields stOk 1 3 exUpdateData rfl rfl

/-- C10.  With a working connection, an update whose body holds at
least one allow-listed field succeeds with the fixed 200 message even
when no row has the given id (the UPDATE then affects zero rows and the
state is unchanged); the update endpoints can never answer 404. -/
theorem update_nonexistent_id_still_succeeds (st : ApiState) (aid bid : Nat) (data : Dict)
    (hr : st.conn.reachable = true) (hq : st.conn.queryOk = true) :
    ((allowed_fields_artist.filter (fun f => dictContains data f)).isEmpty = false →
      find_artist st.tables aid = none →
        (update_artist st aid data).2 = (200, Body.msg "Artista actualizado exitosamente") ∧
        (update_artist st aid data).1 = st) ∧
    ((allowed_fields_album.filter (fun f => dictContains data f)).isEmpty = false →
      find_album_view st.tables bid = none →
        (update_album st bid data).2 = (200, Body.msg "Álbum actualizado exitosamente") ∧
        (update_album st bid data).1 = st) ∧
    (∀ st2 id2 d2, (update_artist st2 id2 d2).2.1 ≠ 404 ∧
      (update_album st2 id2 d2).2.1 ≠ 404) := by
  refine ⟨?_, ?_, ?_⟩
  · intro hne habs
    have hall : ∀ a ∈ st.tables.artists, (a.artist_id == aid) = false := by
      intro a ha
      have := List.find?_eq_none.mp habs a ha
      simpa using this
    have hmap : st.tables.artists.map
        (fun a => if a.artist_id == aid then updateArtistRow data a else a) =
          st.tables.artists := by
      apply map_eq_self_of_eq
      intro a ha
      rw [hall a ha]
      rfl
    constructor
    · unfold update_artist
      simp only [hne, hr, hq, Bool.not_true, Bool.false_eq_true, if_false]
    · unfold update_artist
      simp only [hne, hr, hq, Bool.not_true, Bool.false_eq_true, if_false, hmap]
  · intro hne habs
    have habs2 : st.tables.albums.find? (fun b => b.album_id == bid) = none := by
      unfold find_album_view at habs
      exact Option.map_eq_none'.mp habs
    have hall : ∀ b ∈ st.tables.albums, (b.album_id == bid) = false := by
      intro b hb
      have := List.find?_eq_none.mp habs2 b hb
      simpa using this
    have hmap : st.tables.albums.map
        (fun b => if b.album_id == bid then updateAlbumRow data b else b) =
          st.tables.albums := by
      apply map_eq_self_of_eq
      intro b hb
      rw [hall b hb]
      rfl
    constructor
    · unfold update_album
      simp only [hne, hr, hq, Bool.not_true, Bool.false_eq_true, if_false]
    · unfold update_album
      simp only [hne, hr, hq, Bool.not_true, Bool.false_eq_true, if_false, hmap]
  · intro st2 id2 d2
    constructor
    · simp only [update_artist]
      cases (allowed_fields_artist.filter (fun f => dictContains d2 f)).isEmpty <;>
        cases st2.conn.reachable <;> cases st2.conn.queryOk <;> simp
    · simp only [update_album]
      cases (allowed_fields_album.filter (fun f => dictContains d2 f)).isEmpty <;>
        cases st2.conn.reachable <;> cases st2.conn.queryOk <;> simp

/-- C10, witness: updating the absent artist 99 and the absent album 98
on the populated state. -/
theorem update_nonexistent_witness :
    ((allowed_fields_artist.filter (fun f => dictContains exUpdateData f)).isEmpty = false →
      find_artist stOk.tables 99 = none →
        (update_artist stOk 99 exUpdateData).2 =
            (200, Body.msg "Artista actualizado exitosamente") ∧
        (update_artist stOk 99 exUpdateData).1 = stOk) ∧
    ((allowed_fields_album.filter (fun f => dictContains exUpdateData f)).isEmpty = false →
      find_album_view stOk.tables 98 = none →
        (update_album stOk 98 exUpdateData).2 =
            (200, Body.msg "Álbum actualizado exitosamente") ∧
        (update_album stOk 98 exUpdateData).1 = stOk) ∧
    (∀ st2 id2 d2, (update_artist st2 id2 d2).2.1 ≠ 404 ∧
      (update_album st2 id2 d2).2.1 ≠ 404) :=
  update_nonexistent_id_still_succeeds stOk 99 98 exUpdateData rfl rfl

/-- A song-insertion iteration never touches the trigger flag. -/
theorem song_insert_step_trigger (album_ids : List Nat) (insFail : Nat → Bool) (i : Nat)
    (st : SongGenState) (r : PyRng) :
    (song_insert_step album_ids insFail i st r).1.triggerEnabled = st.triggerEnabled :=
  rfl

/-- C9, counterexample.  A run of `generate_songs` in which the
disabling ALTER took effect but the re-enabling ALTER raised (its
exception discarded by `except: pass`) finishes — the loop and the
method complete — with the trigger still disabled, although it was
enabled when the run began.  So it is not the case that whenever
`generate_songs` finishes the trigger is enabled again. -/
theorem generate_songs_finish_can_leave_trigger_disabled :
    (generate_songs [3] (fun _ => false) true false 1
        { songs := [], triggerEnabled := true } exRng).1.triggerEnabled = false := by
  decide

/-- C9, amended.  In every run, the suspending ALTER is issued before
the bulk loop and the restoring ALTER immediately after it, and no
per-row insert failure can skip the restoration attempt: when the
disable takes effect the trigger stays disabled throughout every prefix
of the loop, and when the re-enable takes effect the trigger is enabled
again on finish.  The restoration is best-effort, though: both ALTER
statements sit in exception guards that swallow failure, so a run whose
re-enabling ALTER raises finishes with the trigger still disabled. -/
theorem generate_songs_trigger_bracket_best_effort (album_ids : List Nat)
    (insFail : Nat → Bool) (count : Nat) (st : SongGenState) (r : PyRng) :
    (∀ k, (songs_loop album_ids insFail k
        { st with triggerEnabled := false } r).1.triggerEnabled = false) ∧
    (generate_songs album_ids insFail true true count st r).1.triggerEnabled = true ∧
    (generate_songs album_ids insFail true false count st r).1.triggerEnabled = false := by
  have hloop : ∀ k, (songs_loop album_ids insFail k
      { st with triggerEnabled := false } r).1.triggerEnabled = false := by
    intro k
    induction k with
    | zero => rfl
    | succ n ih =>
      unfold songs_loop at ih ⊢
      rw [List.range_succ, List.foldl_append, List.foldl_cons, List.foldl_nil,
        song_insert_step_trigger]
      exact ih
  refine ⟨hloop, rfl, ?_⟩
  show (songs_loop album_ids insFail count
      { st with triggerEnabled := false } r).1.triggerEnabled = false
  exact hloop count

/-- One `generate_song_distributions` iteration: when both database-side
picks return a row, the iteration consumes the same three seeded draws
on both sides, so the resulting streams coincide and the attempted rows
agree on every seed-derived field. -/
theorem song_dist_step_seed_fields (dbPick1 dbPick2 : Nat → Option (Nat × Nat))
    (dids : List Nat) (i : Nat) (g1 g2 : SDGen) (r : PyRng)
    (h1 : (dbPick1 i).isSome = true) (h2 : (dbPick2 i).isSome = true)
    (hatt : g1.attempts.map sdSeedFields = g2.attempts.map sdSeedFields) :
    (song_dist_step dbPick1 dids i g1 r).2 = (song_dist_step dbPick2 dids i g2 r).2 ∧
    (song_dist_step dbPick1 dids i g1 r).1.attempts.map sdSeedFields =
      (song_dist_step dbPick2 dids i g2 r).1.attempts.map sdSeedFields := by
  obtain ⟨p1, hp1⟩ := Option.isSome_iff_exists.mp h1
  obtain ⟨p2, hp2⟩ := Option.isSome_iff_exists.mp h2
  unfold song_dist_step
  rw [hp1, hp2]
  constructor
  · rfl
  · simp only [List.map_append, hatt]
    rfl

/-- The bulk loop of `generate_song_distributions`, compared under two
database-side pick oracles that both always return a row: the seeded
stream advances identically and the attempted insertions agree on every
seed-derived field. -/
theorem generate_song_distributions_seed_fields (dbPick1 dbPick2 : Nat → Option (Nat × Nat))
    (dids : List Nat) (count : Nat) (g1 g2 : SDGen) (r : PyRng)
    (h1 : ∀ i, (dbPick1 i).isSome = true) (h2 : ∀ i, (dbPick2 i).isSome = true)
    (hatt : g1.attempts.map sdSeedFields = g2.attempts.map sdSeedFields) :
    (generate_song_distributions dbPick1 dids count g1 r).2 =
      (generate_song_distributions dbPick2 dids count g2 r).2 ∧
    (generate_song_distributions dbPick1 dids count g1 r).1.attempts.map sdSeedFields =
      (generate_song_distributions dbPick2 dids count g2 r).1.attempts.map sdSeedFields := by
  induction count with
  | zero => exact ⟨rfl, hatt⟩
  | succ n ih =>
    unfold generate_song_distributions at ih ⊢
    rw [List.range_succ, List.foldl_append, List.foldl_cons, List.foldl_nil,
      List.foldl_append, List.foldl_cons, List.foldl_nil]
    have hr2 := ih.2
    have hr1 := ih.1
    rw [hr1]
    exact song_dist_step_seed_fields dbPick1 dbPick2 dids n _ _ _ (h1 n) (h2 n) hr2

/-- C4, amended claim.  The Python-side draws are a pure function of
the seed: under the same seeded stream, two runs of
`generate_song_distributions` whose database-side song picks may differ
arbitrarily (but always return a row) attempt the same number of
insertions, agreeing on platform, publish date and status of every
attempted row — only the song attachment, chosen by the database's
`ORDER BY RANDOM()`, can differ. -/
theorem song_distribution_seed_determinism (dbPick1 dbPick2 : Nat → Option (Nat × Nat))
    (dids : List Nat) (count : Nat) (rows0 : List SongDistribution) (r : PyRng)
    (h1 : ∀ i, (dbPick1 i).isSome = true) (h2 : ∀ i, (dbPick2 i).isSome = true) :
    (generate_song_distributions dbPick1 dids count
        { rows := rows0, attempts := [] } r).1.attempts.map sdSeedFields =
      (generate_song_distributions dbPick2 dids count
        { rows := rows0, attempts := [] } r).1.attempts.map sdSeedFields :=
  (generate_song_distributions_seed_fields dbPick1 dbPick2 dids count
    { rows := rows0, attempts := [] } { rows := rows0, attempts := [] } r h1 h2 rfl).2

/-- C4, witness for the amended claim: two constant database-side picks
over the same two-song table, same seed stream. -/
theorem song_distribution_seed_determinism_witness :
    (generate_song_distributions exPickA [1] 1
        { rows := [], attempts := [] } exRng).1.attempts.map sdSeedFields =
      (generate_song_distributions exPickB [1] 1
        { rows := [], attempts := [] } exRng).1.attempts.map sdSeedFields :=
  song_distribution_seed_determinism exPickA exPickB [1] 1 [] exRng
    (fun _ => rfl) (fun _ => rfl)

/-- C4, counterexample.  Same seed stream, same initial state, both
database-side picks returning rows of the same song table — yet the
stored `song_distribution` rows differ: the song each row is attached to
is decided by the database's `ORDER BY RANDOM()`, which the fixed seed
does not control, so the insertion sequence is not a function of the
seed and the initial database state. -/
theorem song_attachment_not_seed_determined :
    exPickA 0 = some (3, 1) ∧ exPickB 0 = some (3, 2) ∧
    (3, 1) ∈ exSongKeys ∧ (3, 2) ∈ exSongKeys ∧
    (generate_song_distributions exPickA [1] 1 { rows := [], attempts := [] } exRng).1.rows ≠
      (generate_song_distributions exPickB [1] 1 { rows := [], attempts := [] } exRng).1.rows := by
  refine ⟨rfl, rfl, by decide, by decide, ?_⟩
  intro h
  have h1 : (generate_song_distributions exPickA [1] 1
      { rows := [], attempts := [] } exRng).1.rows =
        [{ song_id := 1, album_id := 3, distribution_id := 1, publish_date := 0,
           status := "active" }] := rfl
  have h2 : (generate_song_distributions exPickB [1] 1
      { rows := [], attempts := [] } exRng).1.rows =
        [{ song_id := 2, album_id := 3, distribution_id := 1, publish_date := 0,
           status := "active" }] := rfl
  rw [h1, h2] at h
  simp at h

end MusicLabel
